import Mathlib

/-!
Verification of the serial-flash read/write example (CM33 non-secure
application, `proj_cm33_ns/main.c`) together with a model of the serial
memory middleware it drives (the `mtb_serial_memory` engine and the
SFDP-style parameter resolver described in the design document).

The demo application code (`check_status`, the address computation and the
control flow of `main`) is embedded directly from `main.c`.  The flash
operation engine and the parameter resolver live in the external
`serial-memory` library, so they are modelled from the specification.
-/

namespace SerialFlash

/-! ## Constants from `main.c` -/

/-- Memory Read/Write size (`PACKET_SIZE` in `main.c`). -/
def PACKET_SIZE : Nat := 64

/-- Divider applied to the device size when computing the operated-on
offset (`MEM_SLOT_DIVIDER` in `main.c`). -/
def MEM_SLOT_DIVIDER : Nat := 2

/-- Multiplier applied to the erase size when computing the operated-on
offset (`MEM_SLOT_MULTIPLIER` in `main.c`). -/
def MEM_SLOT_MULTIPLIER : Nat := 2

/-- Flash data after erase (`FLASH_DATA_AFTER_ERASE` in `main.c`). -/
def FLASH_DATA_AFTER_ERASE : Nat := 0xFF

/-- Success status value (`SUCCESS_STATUS` in `main.c`). -/
def SUCCESS_STATUS : Nat := 0

/-! ## Data model -/

/-- Device profile resolved once at setup: geometry of the flash part.
Field names follow the configuration structure consulted by `main.c`
(`deviceCfg->memSize`, `deviceCfg->eraseSize`, `deviceCfg->programSize`). -/
structure DeviceProfile where
  memSize : Nat
  eraseSize : Nat
  programSize : Nat
  deriving Repr, DecidableEq

/-- A flash device: its resolved profile plus the current content of its
linear byte-addressed memory. -/
structure Device where
  profile : DeviceProfile
  mem : Nat → Nat

/-- Operation error taxonomy of the flash operation engine (§7 of the
design document). -/
inductive OperationError where
  | UnalignedRange
  | RangeOutOfBounds
  | SizeMismatch
  | DeviceTimeout
  | BusError
  deriving Repr, DecidableEq

/-- Outcome of one engine call: the typed result, together with the number
of bus transactions that were issued while performing it (used to express
"fails before any bus transaction is issued"). -/
structure EngineResult (α : Type) where
  result : Except OperationError α
  busTransactions : Nat

/-! ## Flash operation engine

Modelled from the spec: the engine itself (`mtb_serial_memory_erase`,
`mtb_serial_memory_write`, `mtb_serial_memory_read`,
`mtb_serial_memory_get_erase_size`, `mtb_serial_memory_get_size`) is part
of the external `serial-memory` library, not among the sources of this repository;
the definitions below follow §4.2 of the design document.  Device-busy
polling is abstracted: the model describes the successful completion of
each issued transaction, timeouts being a hardware condition outside the
functional state. -/

/-- Modelled from the spec: `mtb_serial_memory_get_size` returns the total
memory size of the bound device. -/
def mtb_serial_memory_get_size (d : Device) : Nat :=
  d.profile.memSize

/-- Modelled from the spec: `mtb_serial_memory_get_erase_size` returns the
erase-block size of the block containing the given address (uniform-layout
devices report the single block size for every address). -/
def mtb_serial_memory_get_erase_size (d : Device) (_addr : Nat) : Nat :=
  d.profile.eraseSize

/-- Modelled from the spec (§4.2 `erase`): validates the range against the
erase-alignment invariants (fails `UnalignedRange` otherwise, before any
bus transaction), validates it against the device size, then issues one
erase-block-sized command per block in range; on success every byte in the
range holds the erased value `0xFF`. -/
def erase (d : Device) (offset length : Nat) : EngineResult Device :=
  if offset % d.profile.eraseSize ≠ 0 ∨ length % d.profile.eraseSize ≠ 0 then
    ⟨.error .UnalignedRange, 0⟩
  else if d.profile.memSize < offset + length then
    ⟨.error .RangeOutOfBounds, 0⟩
  else
    ⟨.ok { d with
            mem := fun a =>
              if offset ≤ a ∧ a < offset + length then FLASH_DATA_AFTER_ERASE
              else d.mem a },
      length / d.profile.eraseSize⟩

/-- Modelled from the spec (§4.2 `program`): a programmed byte can only
clear bits of the previously stored byte ("program-only-clears-bits"
device semantics). -/
def programByte (old new : Nat) : Nat := old &&& new

/-- Number of program-page transactions needed to cover `[offset, offset +
length)` when pages are `pageSize` bytes: a write crossing a page boundary
is split into one transaction per touched page. -/
def pagesTouched (pageSize offset length : Nat) : Nat :=
  if length = 0 then 0
  else (offset + length - 1) / pageSize - offset / pageSize + 1

/-- Modelled from the spec (§4.2 `program`, caller-facing surface
`mtb_serial_memory_write`): fails `SizeMismatch` if the data length
disagrees with the range length and `RangeOutOfBounds` if the range
exceeds the device size, both before any bus transaction is issued;
otherwise writes the data page-by-page, each byte combining with the
previous content by the program-only-clears-bits semantics of the device. -/
def program (d : Device) (offset length : Nat) (data : List Nat) :
    EngineResult Device :=
  if data.length ≠ length then
    ⟨.error .SizeMismatch, 0⟩
  else if d.profile.memSize < offset + length then
    ⟨.error .RangeOutOfBounds, 0⟩
  else
    ⟨.ok { d with
            mem := fun a =>
              if offset ≤ a ∧ a < offset + length then
                programByte (d.mem a) (data.getD (a - offset) 0)
              else d.mem a },
      pagesTouched d.profile.programSize offset length⟩

/-- Modelled from the spec (§4.2 `read`, caller-facing surface
`mtb_serial_memory_read`): fails `RangeOutOfBounds` if the range exceeds
the device size, before any bus transaction; otherwise delivers the full
range. -/
def read (d : Device) (offset length : Nat) : EngineResult (List Nat) :=
  if d.profile.memSize < offset + length then
    ⟨.error .RangeOutOfBounds, 0⟩
  else
    ⟨.ok ((List.range length).map fun i => d.mem (offset + i)),
      if length = 0 then 0 else 1⟩

/-! ## `memcmp` (C library semantics on byte buffers) -/

/-- `memcmp` on two byte buffers of equal length: zero iff equal, with the
sign of the first differing byte pair otherwise. -/
def memcmp : List Nat → List Nat → Int
  | x :: xs, y :: ys => if x = y then memcmp xs ys else (x : Int) - (y : Int)
  | _, _ => 0

/-! ## Parameter resolver (auto-discovery mode)

Modelled from the spec: the resolver is implemented by the PDL
(`cy_smif_memslot.c`) outside this repository; §4.1 of the design document
describes its auto-discovery mode over the SFDP-style parameter
table. -/

/-- Resolution error taxonomy (§7 of the design document). -/
inductive ResolutionError where
  | InvalidStaticProfile
  | SignatureMismatch
  | UnsupportedTableRevision
  | MalformedTable
  deriving Repr, DecidableEq

/-- The expected protocol constant for the parameter-table header
signature (the ASCII bytes of `SFDP`, little-endian). -/
def SFDP_SIGNATURE : Nat := 0x50444653

/-- Highest parameter-table revision the parser understands. -/
def SFDP_MAX_REVISION : Nat := 0x0106

/-- Minimum required header-plus-body size, in 32-bit words, of the
parameter table (density, erase granularity, opcodes, timing). -/
def SFDP_MIN_TABLE_WORDS : Nat := 9

/-- Header of the self-describing parameter table of the device: signature,
revision and declared body length (in 32-bit words). -/
structure SfdpHeader where
  signature : Nat
  revision : Nat
  tableLength : Nat
  deriving Repr, DecidableEq

/-- A parameter table as read back from the device: the parsed header and
the body words actually transferred. -/
structure SfdpTable where
  header : SfdpHeader
  body : List Nat
  deriving Repr, DecidableEq

/-- Modelled from the spec (§4.1 auto-discovery mode): checks the header
signature against the expected constant (`SignatureMismatch` otherwise),
rejects revisions beyond what the parser understands
(`UnsupportedTableRevision`), rejects tables whose declared length is
inconsistent with the bytes actually read or smaller than the minimum
required size (`MalformedTable`, tolerating trailing unknown words), and
otherwise maps the density, erase-granularity and page fields of the body into
a `DeviceProfile`. -/
def resolve_auto (t : SfdpTable) : Except ResolutionError DeviceProfile :=
  if t.header.signature ≠ SFDP_SIGNATURE then
    .error .SignatureMismatch
  else if SFDP_MAX_REVISION < t.header.revision then
    .error .UnsupportedTableRevision
  else if t.body.length < t.header.tableLength ∨
          t.header.tableLength < SFDP_MIN_TABLE_WORDS then
    .error .MalformedTable
  else
    .ok { memSize := t.body.getD 1 0 + 1,
          eraseSize := 2 ^ (t.body.getD 7 0 % 256),
          programSize := 2 ^ (t.body.getD 8 0 % 256) }

/-! ## The demo application (`main.c`) -/

/-- Observable effect of one `check_status` call: the console lines it
prints, whether it turned User LED 1 on, and whether it returned to its
caller (a `false` here is the `while(true)` halt). -/
structure CheckEffect where
  printedLines : List String
  ledOn : Bool
  returns : Bool
  deriving Repr, DecidableEq

/-- `check_status` from `main.c`: on a non-zero status it prints the
failure message and the error code, turns User LED 1 on and loops forever;
on `SUCCESS_STATUS` it returns with no output and no LED change. -/
def check_status (message : String) (status : Nat) : CheckEffect :=
  if SUCCESS_STATUS ≠ status then
    { printedLines :=
        ["FAIL: " ++ message,
         "Error Code: 0x" ++ String.mk (Nat.toDigits 16 status)],
      ledOn := true,
      returns := false }
  else
    { printedLines := [], ledOn := false, returns := true }

/-- `ext_mem_address` as computed in `main`:
`memSize / MEM_SLOT_DIVIDER - eraseSize * MEM_SLOT_MULTIPLIER`, in the
32-bit unsigned arithmetic of the C expression. -/
def extMemAddress (memSize eraseSize : Nat) : Nat :=
  (memSize / MEM_SLOT_DIVIDER % 2 ^ 32 +
    (2 ^ 32 - eraseSize * MEM_SLOT_MULTIPLIER % 2 ^ 32)) % 2 ^ 32

/-- The milestones of the straight-line flow of `main`, in program order. -/
inductive MainEvent where
  | setup
  | eraseOp
  | readAfterErase
  | verifyErase
  | writeOp
  | readBack
  | verifyData
  | enableCM55
  | successLoop
  | haltLedOn
  deriving Repr, DecidableEq

/-- The statuses `main` feeds to `check_status`, in program order: the
five middleware results and the two `memcmp` verification results (as the
unsigned value the C call passes). -/
structure MainEnv where
  setupStatus : Nat
  eraseStatus : Nat
  read1Status : Nat
  eraseCmpStatus : Nat
  writeStatus : Nat
  read2Status : Nat
  dataCmpStatus : Nat
  deriving Repr, DecidableEq

/-- The control flow of `main` from `main.c` as the trace of milestones it
executes: each operation is followed by its `check_status` gate, whose
failure path (print, LED on, `while(true)`) ends the trace with
`haltLedOn`; only when every gate passes does `main` print success, enable
the CM55 core and enter the LED-blink loop. -/
def runMain (e : MainEnv) : List MainEvent :=
  .setup ::
  if ¬(check_status "Serial memory setup failed" e.setupStatus).returns then
    [.haltLedOn]
  else .eraseOp ::
  if ¬(check_status "Erasing memory failed" e.eraseStatus).returns then
    [.haltLedOn]
  else .readAfterErase ::
  if ¬(check_status "Reading memory failed" e.read1Status).returns then
    [.haltLedOn]
  else .verifyErase ::
  if ¬(check_status "Flash contains data other than 0xFF after erase"
        e.eraseCmpStatus).returns then
    [.haltLedOn]
  else .writeOp ::
  if ¬(check_status "Writing to memory failed" e.writeStatus).returns then
    [.haltLedOn]
  else .readBack ::
  if ¬(check_status "Reading memory failed" e.read2Status).returns then
    [.haltLedOn]
  else .verifyData ::
  if ¬(check_status
        "Read data does not match with written data. Read/Write operation failed."
        e.dataCmpStatus).returns then
    [.haltLedOn]
  else
    [.enableCM55, .successLoop]

/-! ## Helper lemmas -/

/-- Mapping a function that is constant below `n` over `List.range n`
yields a replicate. -/
theorem map_range_eq_replicate {α : Type} (f : Nat → α) (n : Nat) (c : α)
    (h : ∀ i, i < n → f i = c) :
    (List.range n).map f = List.replicate n c := by
  have hmem : ∀ b ∈ (List.range n).map f, b = c := by
    intro b hb
    simp only [List.mem_map, List.mem_range] at hb
    obtain ⟨i, hi, rfl⟩ := hb
    exact h i hi
  have hrep := List.eq_replicate_length.mpr hmem
  simpa using hrep

/-- Reading back a list element-by-element via `getD` reconstructs it. -/
theorem map_range_getD (l : List Nat) :
    (List.range l.length).map (fun i => l.getD i 0) = l := by
  induction l with
  | nil => simp
  | cons x xs ih =>
      rw [List.length_cons, List.range_succ_eq_map, List.map_cons,
        List.map_map]
      simp only [List.getD_cons_zero, List.cons.injEq, true_and]
      calc (List.range xs.length).map ((fun i => (x :: xs).getD i 0) ∘ (· + 1))
          = (List.range xs.length).map (fun i => xs.getD i 0) := by
            apply List.map_congr_left
            intro i _
            simp [List.getD_cons_succ]
        _ = xs := ih

/-- An erased byte masks nothing: programming `b < 256` over the erased
value `0xFF` stores exactly `b`. -/
theorem land_255_eq (b : Nat) (hb : b < 256) : 255 &&& b = b := by
  have h : 255 &&& b = b &&& 255 := Nat.land_comm 255 b
  rw [h, show (255 : Nat) = 2 ^ 8 - 1 from rfl,
    Nat.and_pow_two_sub_one_eq_mod, Nat.mod_eq_of_lt hb]

/-- `memcmp` of a buffer against itself returns 0. -/
theorem memcmp_self (l : List Nat) : memcmp l l = 0 := by
  induction l with
  | nil => rfl
  | cons x xs ih => simpa [memcmp] using ih

/-- Successful `erase`: characterization of the result device. -/
theorem erase_ok (d : Device) (off len : Nat)
    (ha1 : off % d.profile.eraseSize = 0)
    (ha2 : len % d.profile.eraseSize = 0)
    (hb : off + len ≤ d.profile.memSize) :
    ∃ d1 : Device, (erase d off len).result = .ok d1 ∧
      d1.profile = d.profile ∧
      (∀ a, off ≤ a → a < off + len → d1.mem a = FLASH_DATA_AFTER_ERASE) ∧
      (∀ a, ¬(off ≤ a ∧ a < off + len) → d1.mem a = d.mem a) := by
  have h1 : ¬(off % d.profile.eraseSize ≠ 0 ∨ len % d.profile.eraseSize ≠ 0) := by
    simp [ha1, ha2]
  have h2 : ¬(d.profile.memSize < off + len) := Nat.not_lt.mpr hb
  refine ⟨{ d with
      mem := fun a =>
        if off ≤ a ∧ a < off + len then FLASH_DATA_AFTER_ERASE
        else d.mem a },
    by simp only [erase, if_neg h1, if_neg h2], rfl, ?_, ?_⟩
  · intro a h3 h4
    simp only [if_pos (And.intro h3 h4)]
  · intro a h3
    simp only [if_neg h3]

/-- Successful `program`: characterization of the result device. -/
theorem program_ok (d : Device) (off len : Nat) (data : List Nat)
    (hlen : data.length = len)
    (hb : off + len ≤ d.profile.memSize) :
    ∃ d2 : Device, (program d off len data).result = .ok d2 ∧
      d2.profile = d.profile ∧
      (∀ a, off ≤ a → a < off + len →
        d2.mem a = programByte (d.mem a) (data.getD (a - off) 0)) ∧
      (∀ a, ¬(off ≤ a ∧ a < off + len) → d2.mem a = d.mem a) := by
  have h1 : ¬(data.length ≠ len) := by simp [hlen]
  have h2 : ¬(d.profile.memSize < off + len) := Nat.not_lt.mpr hb
  refine ⟨{ d with
      mem := fun a =>
        if off ≤ a ∧ a < off + len then
          programByte (d.mem a) (data.getD (a - off) 0)
        else d.mem a },
    by simp only [program, if_neg h1, if_neg h2], rfl, ?_, ?_⟩
  · intro a h3 h4
    simp only [if_pos (And.intro h3 h4)]
  · intro a h3
    simp only [if_neg h3]

/-- Successful `read` delivers the bytes of the range. -/
theorem read_ok (d : Device) (off len : Nat)
    (hb : off + len ≤ d.profile.memSize) :
    (read d off len).result =
      .ok ((List.range len).map fun i => d.mem (off + i)) := by
  have h2 : ¬(d.profile.memSize < off + len) := Nat.not_lt.mpr hb
  simp only [read, if_neg h2]

/-- Core erase/program/read law: after a successful erase of an aligned,
in-bounds range, a sub-range reads back fully erased, and programming byte
data into that sub-range then reading it back returns exactly the data. -/
theorem erase_program_read (d : Device) (off len poff plen : Nat)
    (data : List Nat)
    (ha1 : off % d.profile.eraseSize = 0)
    (ha2 : len % d.profile.eraseSize = 0)
    (hb : off + len ≤ d.profile.memSize)
    (hlo : off ≤ poff) (hhi : poff + plen ≤ off + len)
    (hlen : data.length = plen) (hbytes : ∀ b ∈ data, b < 256) :
    ∃ d1 d2 : Device,
      (erase d off len).result = .ok d1 ∧
      (read d1 poff plen).result =
        .ok (List.replicate plen FLASH_DATA_AFTER_ERASE) ∧
      (program d1 poff plen data).result = .ok d2 ∧
      (read d2 poff plen).result = .ok data := by
  obtain ⟨d1, hok1, hprof1, hin1, _⟩ := erase_ok d off len ha1 ha2 hb
  have hb1 : poff + plen ≤ d1.profile.memSize := by rw [hprof1]; omega
  obtain ⟨d2, hok2, hprof2, hin2, _⟩ := program_ok d1 poff plen data hlen hb1
  have hb2 : poff + plen ≤ d2.profile.memSize := by rw [hprof2]; exact hb1
  refine ⟨d1, d2, hok1, ?_, hok2, ?_⟩
  · rw [read_ok d1 poff plen hb1]
    congr 1
    apply map_range_eq_replicate
    intro i hi
    exact hin1 (poff + i) (by omega) (by omega)
  · rw [read_ok d2 poff plen hb2]
    congr 1
    have hpt : ∀ i, i < plen → d2.mem (poff + i) = data.getD i 0 := by
      intro i hi
      rw [hin2 (poff + i) (by omega) (by omega)]
      rw [hin1 (poff + i) (by omega) (by omega)]
      have hsub : poff + i - poff = i := by omega
      rw [hsub]
      have hilen : i < data.length := by omega
      have hmem : data.getD i 0 ∈ data := by
        rw [List.getD_eq_getElem data 0 hilen]
        exact List.getElem_mem hilen
      exact land_255_eq (data.getD i 0) (hbytes _ hmem)
    calc (List.range plen).map (fun i => d2.mem (poff + i))
        = (List.range plen).map (fun i => data.getD i 0) := by
          apply List.map_congr_left
          intro i hi
          exact hpt i (List.mem_range.mp hi)
      _ = data := by rw [← hlen]; exact map_range_getD data

/-! ## Claim theorems -/

/-- C1: for every valid range (erase-aligned and inside device bounds) and
byte buffer with `len(data) = range.length`, `erase(range)` then
`program(range, data)` then `read(range)` yields exactly `data`, so the
final `memcmp` of the written and read-back buffers returns 0. -/
theorem round_trip_law (d : Device) (off len : Nat) (data : List Nat)
    (ha1 : off % d.profile.eraseSize = 0)
    (ha2 : len % d.profile.eraseSize = 0)
    (hb : off + len ≤ d.profile.memSize)
    (hlen : data.length = len) (hbytes : ∀ b ∈ data, b < 256) :
    ∃ (d1 d2 : Device) (rx : List Nat),
      (erase d off len).result = .ok d1 ∧
      (program d1 off len data).result = .ok d2 ∧
      (read d2 off len).result = .ok rx ∧
      rx = data ∧ memcmp data rx = 0 := by
  obtain ⟨d1, d2, h1, _, h3, h4⟩ :=
    erase_program_read d off len off len data ha1 ha2 hb (Nat.le_refl off)
      (Nat.le_refl (off + len)) hlen hbytes
  exact ⟨d1, d2, data, h1, h3, h4, rfl, memcmp_self data⟩

/-- Witness for C1: a concrete device (256-byte memory, 64-byte erase
blocks, 16-byte pages) on which erasing, programming the bytes `0..63`
and reading back the 64-byte range at offset 64 round-trips exactly. -/
theorem round_trip_law_witness :
    ∃ (d1 d2 : Device) (rx : List Nat),
      (erase ⟨⟨256, 64, 16⟩, fun _ => 0⟩ 64 64).result = .ok d1 ∧
      (program d1 64 64 (List.range 64)).result = .ok d2 ∧
      (read d2 64 64).result = .ok rx ∧
      rx = List.range 64 ∧ memcmp (List.range 64) rx = 0 :=
  round_trip_law ⟨⟨256, 64, 16⟩, fun _ => 0⟩ 64 64 (List.range 64)
    (by decide) (by decide) (by decide) (by simp)
    (by intro b hb; exact Nat.lt_of_lt_of_le (List.mem_range.mp hb) (by decide))

/-- C2: after a successful erase of an aligned, in-bounds range, reading
any sub-range of it yields a buffer in which every byte equals the
erased value `0xFF` of the device (`FLASH_DATA_AFTER_ERASE`). -/
theorem erase_postcondition (d : Device) (off len off2 len2 : Nat)
    (ha1 : off % d.profile.eraseSize = 0)
    (ha2 : len % d.profile.eraseSize = 0)
    (hb : off + len ≤ d.profile.memSize)
    (hlo : off ≤ off2) (hhi : off2 + len2 ≤ off + len) :
    ∃ d1 : Device, (erase d off len).result = .ok d1 ∧
      (read d1 off2 len2).result =
        .ok (List.replicate len2 FLASH_DATA_AFTER_ERASE) := by
  obtain ⟨d1, hok, hprof, hin, _⟩ := erase_ok d off len ha1 ha2 hb
  have hb1 : off2 + len2 ≤ d1.profile.memSize := by rw [hprof]; omega
  refine ⟨d1, hok, ?_⟩
  rw [read_ok d1 off2 len2 hb1]
  congr 1
  apply map_range_eq_replicate
  intro i hi
  exact hin (off2 + i) (by omega) (by omega)

/-- Witness for C2: on a concrete 256-byte device with 64-byte erase
blocks, erasing the block at offset 64 makes the 64 bytes there read back
as `0xFF`. -/
theorem erase_postcondition_witness :
    ∃ d1 : Device,
      (erase ⟨⟨256, 64, 16⟩, fun _ => 17⟩ 64 64).result = .ok d1 ∧
      (read d1 64 64).result =
        .ok (List.replicate 64 FLASH_DATA_AFTER_ERASE) :=
  erase_postcondition ⟨⟨256, 64, 16⟩, fun _ => 17⟩ 64 64 64 64
    (by decide) (by decide) (by decide) (by decide) (by decide)

/-- The device geometry of the concrete scenario in the spec: 16 MiB total
size, 64 KiB erase blocks, 256 B program pages. -/
def scenarioProfile : DeviceProfile :=
  { memSize := 2 ^ 24, eraseSize := 2 ^ 16, programSize := 256 }

/-- C3 counterexample: on the scenario geometry the length `main` passes
to `erase` is `sectorSize`, the erase-block size at `ext_mem_address` —
65536 bytes (64 KiB), not the 131072 bytes (128 KiB) the claim states —
and the post-erase read covers `PACKET_SIZE` = 64 bytes, not 128 KiB. -/
theorem main_scenario_cex :
    mtb_serial_memory_get_erase_size ⟨scenarioProfile, fun _ => 0⟩
        (extMemAddress (2 ^ 24) (2 ^ 16)) = 65536 ∧
    (65536 : Nat) ≠ 131072 ∧
    PACKET_SIZE = 64 ∧ PACKET_SIZE ≠ 131072 :=
  ⟨rfl, by decide, rfl, by decide⟩

/-- C3 (amended): on a 16 MiB device with 64 KiB erase blocks and 256 B
pages, whatever the initial memory content, the sequence in `main` succeeds:
the erase of one 64 KiB erase block at offset 8 MiB − 128 KiB, a read of
64 bytes there returning all `0xFF`, programming the 64 bytes `0..63`
there, and a final read returning exactly `[0, 1, ..., 63]`. -/
theorem main_scenario (mem0 : Nat → Nat) :
    ∃ d1 d2 : Device,
      (erase ⟨scenarioProfile, mem0⟩ (extMemAddress (2 ^ 24) (2 ^ 16))
          (mtb_serial_memory_get_erase_size ⟨scenarioProfile, mem0⟩
            (extMemAddress (2 ^ 24) (2 ^ 16)))).result = .ok d1 ∧
      (read d1 (extMemAddress (2 ^ 24) (2 ^ 16)) PACKET_SIZE).result =
        .ok (List.replicate PACKET_SIZE FLASH_DATA_AFTER_ERASE) ∧
      (program d1 (extMemAddress (2 ^ 24) (2 ^ 16)) PACKET_SIZE
          (List.range PACKET_SIZE)).result = .ok d2 ∧
      (read d2 (extMemAddress (2 ^ 24) (2 ^ 16)) PACKET_SIZE).result =
        .ok (List.range PACKET_SIZE) := by
  have hext : extMemAddress (2 ^ 24) (2 ^ 16) = 8257536 := by decide
  have hsz : mtb_serial_memory_get_erase_size ⟨scenarioProfile, mem0⟩
      (extMemAddress (2 ^ 24) (2 ^ 16)) = 65536 := rfl
  rw [hsz, hext]
  exact erase_program_read ⟨scenarioProfile, mem0⟩ 8257536 65536 8257536
    PACKET_SIZE (List.range PACKET_SIZE)
    (by show 8257536 % scenarioProfile.eraseSize = 0 ; decide)
    (by show 65536 % scenarioProfile.eraseSize = 0 ; decide)
    (by show 8257536 + 65536 ≤ scenarioProfile.memSize ; decide)
    (by decide) (by decide)
    (by simp [PACKET_SIZE])
    (by
      intro b hb
      exact Nat.lt_of_lt_of_le (List.mem_range.mp hb) (by decide))

/-- Witness for the amended C3 theorem: the scenario sequence on the
all-zero initial memory. -/
theorem main_scenario_witness :
    ∃ d1 d2 : Device,
      (erase ⟨scenarioProfile, fun _ => 0⟩ (extMemAddress (2 ^ 24) (2 ^ 16))
          (mtb_serial_memory_get_erase_size ⟨scenarioProfile, fun _ => 0⟩
            (extMemAddress (2 ^ 24) (2 ^ 16)))).result = .ok d1 ∧
      (read d1 (extMemAddress (2 ^ 24) (2 ^ 16)) PACKET_SIZE).result =
        .ok (List.replicate PACKET_SIZE FLASH_DATA_AFTER_ERASE) ∧
      (program d1 (extMemAddress (2 ^ 24) (2 ^ 16)) PACKET_SIZE
          (List.range PACKET_SIZE)).result = .ok d2 ∧
      (read d2 (extMemAddress (2 ^ 24) (2 ^ 16)) PACKET_SIZE).result =
        .ok (List.range PACKET_SIZE) :=
  main_scenario (fun _ => 0)

/-- C5: `program` called with a data buffer whose length disagrees with
the range length fails `SizeMismatch` having issued zero bus transactions,
so the device state is untouched (no success value is produced and nothing
reaches the bus). -/
theorem program_size_mismatch (d : Device) (off len : Nat) (data : List Nat)
    (h : data.length ≠ len) :
    program d off len data = ⟨.error .SizeMismatch, 0⟩ := by
  simp only [program, if_pos h]

/-- Witness for C5: programming 3 bytes into a 4-byte range fails
`SizeMismatch` without touching the bus. -/
theorem program_size_mismatch_witness :
    program ⟨⟨256, 64, 16⟩, fun _ => 0⟩ 0 4 [1, 2, 3] =
      ⟨.error .SizeMismatch, 0⟩ :=
  program_size_mismatch ⟨⟨256, 64, 16⟩, fun _ => 0⟩ 0 4 [1, 2, 3] (by decide)

/-- C6: `erase` called with an offset not aligned to the erase-block size
or a length that is not a multiple of it fails `UnalignedRange` having
issued zero bus transactions, so the device state is untouched. -/
theorem erase_unaligned (d : Device) (off len : Nat)
    (h : off % d.profile.eraseSize ≠ 0 ∨ len % d.profile.eraseSize ≠ 0) :
    erase d off len = ⟨.error .UnalignedRange, 0⟩ := by
  simp only [erase, if_pos h]

/-- Witness for C6: erasing at the unaligned offset 1 on a device with
64-byte erase blocks fails `UnalignedRange` without touching the bus. -/
theorem erase_unaligned_witness :
    erase ⟨⟨256, 64, 16⟩, fun _ => 0⟩ 1 64 = ⟨.error .UnalignedRange, 0⟩ :=
  erase_unaligned ⟨⟨256, 64, 16⟩, fun _ => 0⟩ 1 64 (by decide)

/-- C7: for any range whose end exceeds the device size — also when the
starting offset alone is in bounds — `read` fails `RangeOutOfBounds`, and
so does `program` on a matching-length buffer, both having issued zero
bus transactions. -/
theorem range_out_of_bounds (d : Device) (off len : Nat) (data : List Nat)
    (h : d.profile.memSize < off + len) (hlen : data.length = len) :
    read d off len = ⟨.error .RangeOutOfBounds, 0⟩ ∧
    program d off len data = ⟨.error .RangeOutOfBounds, 0⟩ := by
  constructor
  · simp only [read, if_pos h]
  · have h1 : ¬(data.length ≠ len) := by simp [hlen]
    simp only [program, if_neg h1, if_pos h]

/-- Witness for C7: on a 256-byte device, the range at offset 200 of
length 100 starts in bounds but ends out of bounds; both `read` and
`program` fail `RangeOutOfBounds` without touching the bus. -/
theorem range_out_of_bounds_witness :
    read ⟨⟨256, 64, 16⟩, fun _ => 0⟩ 200 100 =
      ⟨.error .RangeOutOfBounds, 0⟩ ∧
    program ⟨⟨256, 64, 16⟩, fun _ => 0⟩ 200 100 (List.replicate 100 7) =
      ⟨.error .RangeOutOfBounds, 0⟩ :=
  range_out_of_bounds ⟨⟨256, 64, 16⟩, fun _ => 0⟩ 200 100
    (List.replicate 100 7) (by decide) (by simp)

/-- C8: the resolver in auto-discovery mode, given a parameter table whose
header signature differs from the expected protocol constant, fails
`SignatureMismatch` and produces no `DeviceProfile`. -/
theorem resolver_signature_mismatch (t : SfdpTable)
    (h : t.header.signature ≠ SFDP_SIGNATURE) :
    resolve_auto t = .error .SignatureMismatch ∧
    ∀ p : DeviceProfile, resolve_auto t ≠ .ok p := by
  have h1 : resolve_auto t = .error .SignatureMismatch := by
    simp only [resolve_auto, if_pos h]
  refine ⟨h1, fun p hp => ?_⟩
  rw [h1] at hp
  exact Except.noConfusion hp

/-- Witness for C8: a table with a zero signature (but otherwise
well-formed header and body) is rejected with `SignatureMismatch` and
yields no profile. -/
theorem resolver_signature_mismatch_witness :
    resolve_auto ⟨⟨0, 0x0106, 9⟩, List.replicate 9 0⟩ =
      .error .SignatureMismatch ∧
    ∀ p : DeviceProfile,
      resolve_auto ⟨⟨0, 0x0106, 9⟩, List.replicate 9 0⟩ ≠ .ok p :=
  resolver_signature_mismatch ⟨⟨0, 0x0106, 9⟩, List.replicate 9 0⟩
    (by decide)

/-- C9: `check_status` called with `SUCCESS_STATUS` (0) returns normally
and has no observable effect: it prints nothing, leaves the LED untouched
and does not enter the infinite loop. -/
theorem check_status_success_no_effect (m : String) :
    check_status m SUCCESS_STATUS =
      { printedLines := [], ledOn := false, returns := true } := by
  simp [check_status]

/-- Witness for C9: the success path of a concrete `check_status` call. -/
theorem check_status_success_no_effect_witness :
    check_status "Erasing memory failed" SUCCESS_STATUS =
      { printedLines := [], ledOn := false, returns := true } :=
  check_status_success_no_effect "Erasing memory failed"

/-- `check_status` returns to its caller exactly when the status it is
given equals `SUCCESS_STATUS`. -/
theorem check_status_returns (m : String) (s : Nat) :
    (check_status m s).returns = (s == SUCCESS_STATUS) := by
  by_cases h : SUCCESS_STATUS = s
  · simp [check_status, h]
  · simp [check_status, h, Ne.symm h]

/-- C4: whenever any status fed to a `check_status` gate is non-zero —
any middleware result or either verification `memcmp` — the trace of `main`
ends in the failure path (`check_status` prints, turns User LED 1 on and
loops forever), and neither the success path nor the `Cy_SysEnableCM55`
call is ever reached. -/
theorem halt_on_failure (e : MainEnv)
    (h : e.setupStatus ≠ SUCCESS_STATUS ∨ e.eraseStatus ≠ SUCCESS_STATUS ∨
      e.read1Status ≠ SUCCESS_STATUS ∨ e.eraseCmpStatus ≠ SUCCESS_STATUS ∨
      e.writeStatus ≠ SUCCESS_STATUS ∨ e.read2Status ≠ SUCCESS_STATUS ∨
      e.dataCmpStatus ≠ SUCCESS_STATUS) :
    MainEvent.enableCM55 ∉ runMain e ∧
    MainEvent.successLoop ∉ runMain e ∧
    (runMain e).getLast? = some MainEvent.haltLedOn := by
  by_cases h1 : e.setupStatus = SUCCESS_STATUS <;>
  by_cases h2 : e.eraseStatus = SUCCESS_STATUS <;>
  by_cases h3 : e.read1Status = SUCCESS_STATUS <;>
  by_cases h4 : e.eraseCmpStatus = SUCCESS_STATUS <;>
  by_cases h5 : e.writeStatus = SUCCESS_STATUS <;>
  by_cases h6 : e.read2Status = SUCCESS_STATUS <;>
  by_cases h7 : e.dataCmpStatus = SUCCESS_STATUS <;>
  simp_all [runMain, check_status_returns]

/-- Witness for C4: a run whose erase step fails with status 1 halts with
the LED on, never enabling the CM55 core. -/
theorem halt_on_failure_witness :
    MainEvent.enableCM55 ∉ runMain ⟨0, 1, 0, 0, 0, 0, 0⟩ ∧
    MainEvent.successLoop ∉ runMain ⟨0, 1, 0, 0, 0, 0, 0⟩ ∧
    (runMain ⟨0, 1, 0, 0, 0, 0, 0⟩).getLast? = some MainEvent.haltLedOn :=
  halt_on_failure ⟨0, 1, 0, 0, 0, 0, 0⟩ (Or.inr (Or.inl (by decide)))

/-- C10: `ext_mem_address` equals `memSize / 2 − 2 · eraseSize` (the C
expression does not wrap for any in-range configuration with
`memSize ≥ 4 · eraseSize`), so the erased block
`[ext_mem_address, ext_mem_address + eraseSize)` lies entirely within the
first half of the address space and below the last erase
block — despite the source comment "Use last sector to erase". -/
theorem ext_mem_address_first_half (m e : Nat)
    (hm : m < 2 ^ 32) (he : 4 * e ≤ m) :
    extMemAddress m e = m / 2 - 2 * e ∧
    extMemAddress m e + e ≤ m / 2 ∧
    extMemAddress m e + e ≤ m - e := by
  unfold extMemAddress MEM_SLOT_DIVIDER MEM_SLOT_MULTIPLIER
  have h32 : (2 : Nat) ^ 32 = 4294967296 := by norm_num
  simp only [h32]
  omega

/-- Witness for C10: the scenario configuration (16 MiB, 64 KiB blocks)
gives `ext_mem_address = 0x7E0000`, inside the first half and below the
last block. -/
theorem ext_mem_address_first_half_witness :
    extMemAddress (2 ^ 24) (2 ^ 16) = 2 ^ 24 / 2 - 2 * 2 ^ 16 ∧
    extMemAddress (2 ^ 24) (2 ^ 16) + 2 ^ 16 ≤ 2 ^ 24 / 2 ∧
    extMemAddress (2 ^ 24) (2 ^ 16) + 2 ^ 16 ≤ 2 ^ 24 - 2 ^ 16 :=
  ext_mem_address_first_half (2 ^ 24) (2 ^ 16) (by norm_num) (by norm_num)

end SerialFlash
